import Mathlib

/-!
Verification of the "Fairy-Tale Diary" application (a React/TypeScript app
that builds children's book-report cards from YouTube story videos).

The development shallowly embeds the program's pure logic:

* `src/services/geminiService.ts` — the response parser of `analyzeStoryLink`
  (JavaScript regexes over the generated text modelled as executable functions
  on `List Char`), the prompt builders of `analyzeStoryLink` and
  `generateSceneImage`, the result-extraction of `generateSceneImage` /
  `generateStorySpeech`, and the try/catch error behaviour of all three
  operations (the external generative-AI call is an oracle parameter of type
  `String → Except String _`).
* `src/components/StoryForm.tsx` — the four style toggles.
* App root (`src/unnamed/part_000`) — the entry store operations
  `handleSaveEntry` / `handleDeleteEntry`.
* `src/components/StoryWorkspace.tsx` — `getCurrentEntry`.

JavaScript-specific semantics (truthiness of strings, `x || y`, `\s`,
`String.prototype.trim`, UTF-16 `.length`) are modelled explicitly.
-/

namespace FairyTale

/-! ## JavaScript string primitives -/

/-- The character class matched by JavaScript `\s` (WhiteSpace ∪
LineTerminator): tab, LF, VT, FF, CR, space, NBSP, Ogham space mark,
U+2000–U+200A, LS, PS, NNBSP, MMSP, ideographic space, BOM. -/
def isJsWs (c : Char) : Bool :=
  c = '\t' ∨ c = '\n' ∨ c.toNat = 0xB ∨ c.toNat = 0xC ∨ c = '\r' ∨ c = ' ' ∨
  c.toNat = 0xA0 ∨ c.toNat = 0x1680 ∨ (0x2000 ≤ c.toNat ∧ c.toNat ≤ 0x200A) ∨
  c.toNat = 0x2028 ∨ c.toNat = 0x2029 ∨ c.toNat = 0x202F ∨
  c.toNat = 0x205F ∨ c.toNat = 0x3000 ∨ c.toNat = 0xFEFF

/-- JavaScript LineTerminator characters, which `.` does not match:
LF, CR, LS, PS. -/
def isLineTerm (c : Char) : Bool :=
  c = '\n' ∨ c = '\r' ∨ c.toNat = 0x2028 ∨ c.toNat = 0x2029

/-- JavaScript `String.prototype.trim`: strip `\s` characters from both
ends. -/
def jsTrim (l : List Char) : List Char :=
  ((l.dropWhile isJsWs).reverse.dropWhile isJsWs).reverse

/-- JavaScript `.length` of a string: number of UTF-16 code units
(characters beyond the BMP count twice). -/
def jsLength (l : List Char) : Nat :=
  l.foldr (fun c n => (if c.toNat ≥ 0x10000 then 2 else 1) + n) 0

/-- JavaScript `a || b` for strings: `a` unless it is falsy (empty). -/
def jsOr (a b : String) : String :=
  if a = "" then b else a

/-- JavaScript `a || b` where `a : string | null | undefined`. -/
def jsOrOpt (a : Option String) (b : String) : String :=
  match a with
  | some x => if x = "" then b else x
  | none => b

/-- Truthiness of a `string | null | undefined` value. -/
def optStrTruthy : Option String → Bool
  | some s => s ≠ ""
  | none => false

/-! ## Model of the parsing regexes of `analyzeStoryLink`

`geminiService.ts` lines 83–86 run four regexes over the response text:

* `/제목:\s*(.+)/`
* `/줄거리:\s*([\s\S]*?)(?=장면:|$)/`
* `/장면:\s*([\s\S]*?)(?=느낀점:|$)/`
* `/느낀점:\s*([\s\S]*?)$/`

Each matches at the first occurrence of its label; `\s*` greedily consumes
whitespace after the label; a body capture `([\s\S]*?)` then extends lazily
up to the first occurrence of the stop label (or the end of the text); the
title capture `(.+)` takes the remainder of the line. -/

/-- Split a character list at the first occurrence of `pat`, returning the
part before the occurrence and the part after it (the occurrence itself
removed); `none` when `pat` does not occur. -/
def splitAtSub (pat : List Char) : List Char → Option (List Char × List Char)
  | [] => if pat = [] then some ([], []) else none
  | c :: rest =>
    if pat.isPrefixOf (c :: rest) then some ([], (c :: rest).drop pat.length)
    else
      match splitAtSub pat rest with
      | some (pre, post) => some (c :: pre, post)
      | none => none

/-- The characters strictly before the first occurrence of `stop`, or the
whole list when `stop` does not occur: the lazy capture `([\s\S]*?)`
bounded by the lookahead `(?=stop|$)`. -/
def takeUntilSub (stop : List Char) : List Char → List Char
  | [] => []
  | c :: rest =>
    if stop.isPrefixOf (c :: rest) then [] else c :: takeUntilSub stop rest

/-- Capture group of `/label\s*([\s\S]*?)(?=stop|$)/`: at the first
occurrence of `label`, skip whitespace, then capture up to the first
occurrence of `stop` or the end. -/
def matchBody (label stop : List Char) (s : List Char) : Option (List Char) :=
  match splitAtSub label s with
  | none => none
  | some (_, post) => some (takeUntilSub stop (post.dropWhile isJsWs))

/-- Capture group of `/label\s*([\s\S]*?)$/`: at the first occurrence of
`label`, skip whitespace, then capture everything to the end. -/
def matchToEnd (label : List Char) (s : List Char) : Option (List Char) :=
  match splitAtSub label s with
  | none => none
  | some (_, post) => some (post.dropWhile isJsWs)

/-- Capture group of `/제목:\s*(.+)/` at a given label occurrence suffix
`post`: after the greedy whitespace run, `.+` takes the rest of the line;
when the run reaches the end of the text, backtracking lets `.` match the
last non-line-terminator whitespace character of the run, if any. -/
def titleCaptureAt (post : List Char) : Option (List Char) :=
  let tail := post.dropWhile isJsWs
  match tail with
  | [] =>
    match ((post.takeWhile isJsWs).filter (fun c => ¬ isLineTerm c)).getLast? with
    | some c => some [c]
    | none => none
  | _ => some (tail.takeWhile (fun c => ¬ isLineTerm c))

/-- Capture group of `/제목:\s*(.+)/` over the whole text (the regex match
starts at the first occurrence of the label from which the rest of the
pattern succeeds; when it fails there, everything after that occurrence is
whitespace, so no later occurrence exists either). -/
def matchTitle (titleLabel : List Char) (s : List Char) : Option (List Char) :=
  match splitAtSub titleLabel s with
  | none => none
  | some (_, post) => titleCaptureAt post

/-- The label `제목:`. -/
def titleLabelK : List Char := "제목:".data

/-- The label `줄거리:`. -/
def summaryLabelK : List Char := "줄거리:".data

/-- The label `장면:`. -/
def sceneLabelK : List Char := "장면:".data

/-- The label `느낀점:`. -/
def thoughtsLabelK : List Char := "느낀점:".data

/-! ## `geminiService.ts`: data types and response parsing -/

/-- `YouTubeAnalysisResult` (geminiService.ts lines 249–254). -/
structure YouTubeAnalysisResult where
  title : String
  summary : String
  recommendedScene : String
  recommendedThoughts : String
deriving DecidableEq, Repr

/-- Fallback title (geminiService.ts line 113). -/
def titleFallback : String := "동화 제목을 찾을 수 없어요"

/-- Fallback summary (geminiService.ts line 114). -/
def summaryFallback : String := "줄거리를 가져오는데 실패했어요. 링크가 올바른지 확인해주세요."

/-- The parsing step of `analyzeStoryLink` (geminiService.ts lines 80–116):
run the four regexes over the response text, trim the captures, and apply
the fallback chain exactly as the code does (`manualTitle` default for the
title; the whole text as summary when the title regex found nothing and the
text has more than 10 UTF-16 units; fixed fallback strings for a still-empty
title or summary). -/
def parseAnalysis (text : String) (manualTitle : Option String) : YouTubeAnalysisResult :=
  let t := text.data
  let titleMatch := matchTitle titleLabelK t
  let summaryMatch := matchBody summaryLabelK sceneLabelK t
  let sceneMatch := matchBody sceneLabelK thoughtsLabelK t
  let thoughtsMatch := matchToEnd thoughtsLabelK t
  -- let title = manualTitle || "";
  let title0 : List Char := (jsOrOpt manualTitle "").data
  -- if (titleMatch && titleMatch[1]) title = titleMatch[1].trim();
  let title1 : List Char :=
    match titleMatch with
    | some cap => if cap ≠ [] then jsTrim cap else title0
    | none => title0
  -- if (summaryMatch && summaryMatch[1]) … else if (!titleMatch && text.length > 10) …
  let summary1 : List Char :=
    match summaryMatch with
    | some cap =>
      if cap ≠ [] then jsTrim cap
      else if titleMatch = none ∧ jsLength t > 10 then t else []
    | none => if titleMatch = none ∧ jsLength t > 10 then t else []
  let scene1 : List Char :=
    match sceneMatch with
    | some cap => if cap ≠ [] then jsTrim cap else []
    | none => []
  let thoughts1 : List Char :=
    match thoughtsMatch with
    | some cap => if cap ≠ [] then jsTrim cap else []
    | none => []
  -- if (!title) … ; if (!summary) …
  let title2 := if title1 = [] then titleFallback.data else title1
  let summary2 := if summary1 = [] then summaryFallback.data else summary1
  ⟨⟨title2⟩, ⟨summary2⟩, ⟨scene1⟩, ⟨thoughts1⟩⟩

/-! ## `types.ts` style and entry types (geminiService.ts lines 224–247) -/

/-- `FontFamily` (line 224). -/
inductive FontFamily where
  | basic | cute | hand | dongle | gamja | poor
deriving DecidableEq, Repr

/-- `FontSize` (line 225). -/
inductive FontSize where
  | xsmall | small | medium | large | xlarge
deriving DecidableEq, Repr

/-- `DrawingLevel` (line 226). -/
inductive DrawingLevel where
  | low | medium | high
deriving DecidableEq, Repr

/-- `WritingGrade` is the TypeScript union `1 | 2 | 3 | 4 | 5 | 6`; we model
it as a `Nat` together with this validity predicate. -/
def validGrade (g : Nat) : Prop := 1 ≤ g ∧ g ≤ 6

instance decValidGrade (g : Nat) : Decidable (validGrade g) :=
  inferInstanceAs (Decidable (1 ≤ g ∧ g ≤ 6))

/-- `StoryStyleConfig` (lines 229–234); `drawingLevel` and `writingGrade`
are optional in the interface. -/
structure StoryStyleConfig where
  fontFamily : FontFamily
  fontSize : FontSize
  drawingLevel : Option DrawingLevel
  writingGrade : Option Nat
deriving DecidableEq, Repr

/-- `StoryEntry` (lines 236–247); `generatedImageUrl` and `styleConfig` are
the optional fields of the interface. -/
structure StoryEntry where
  id : String
  videoUrl : String
  videoId : String
  title : String
  summary : String
  favoriteScene : String
  thoughts : String
  generatedImageUrl : Option String
  styleConfig : Option StoryStyleConfig
  createdAt : Nat
deriving DecidableEq, Repr

/-! ## `geminiService.ts`: prompt builders -/

/-- The drawing-level string as it is interpolated into the image prompt. -/
def drawingLevelStr : DrawingLevel → String
  | .low => "low"
  | .medium => "medium"
  | .high => "high"

/-- The style guideline chosen by `generateSceneImage` (geminiService.ts
lines 139–146): `low` → simple/cute crayon style, `medium` → standard
children's-book watercolor style, anything else → high-quality artistic
style. -/
def styleGuideFor : DrawingLevel → String
  | .low => "Style: Simple and cute art. Thick lines, bright primary colors, simple shapes, crayon or marker style, whimsical. Easy to understand for young children."
  | .medium => "Style: Standard children's book illustration. Colored pencils or soft watercolor. Warm atmosphere, balanced details, friendly characters."
  | _ => "Style: High-quality, artistic illustration. Refined details, sophisticated composition, expressive lighting, beautiful digital art or detailed watercolor."

/-- The effective description used by `generateSceneImage` (lines 134–136):
the scene description, or a summary-based request when it is blank. -/
def effectiveDescription (sceneDescription summary : String) : String :=
  if ⟨jsTrim sceneDescription.data⟩ ≠ ("" : String) then sceneDescription
  else "The most representative and heartwarming scene from the story summary: " ++ summary

/-- The part of the image prompt (lines 148–155) that precedes the style
guideline. -/
def imagePromptHead (sceneDescription title summary : String) (level : DrawingLevel) : String :=
  "\n    Context:\n    Story Title: " ++ title ++
  "\n    Story Summary: " ++ summary ++
  "\n    Target Style Level: " ++ drawingLevelStr level ++
  "\n    \n    Request:\n    Draw a SINGLE illustration for: \"" ++
  effectiveDescription sceneDescription summary ++
  "\"\n    \n    "

/-- The part of the image prompt (lines 159–163) that follows the style
guideline. -/
def imagePromptTail : String :=
  "\n    \n    CRITICAL RESTRICTIONS:\n    1. DO NOT include any text, words, letters, or Hangul in the image. The image must be completely text-free.\n    2. Draw EXACTLY ONE scene. Do not create a comic strip, multiple panels, or split screens.\n    3. Focus on the main characters and action.\n  "

/-- The image prompt of `generateSceneImage` (lines 148–163). -/
def buildImagePrompt (sceneDescription title summary : String) (level : DrawingLevel) : String :=
  imagePromptHead sceneDescription title summary level ++ styleGuideFor level ++ imagePromptTail

/-- The search query of `analyzeStoryLink` (lines 29–32); `videoId` is the
result of `extractYouTubeId` (defined in `utils.ts`, outside the embedded
sources), taken here as a parameter. -/
def buildSearchQuery (url : String) (videoId : Option String) (manualTitle : Option String) : String :=
  let base := match videoId with
    | some v => if v ≠ "" then "site:youtube.com \"" ++ v ++ "\"" else url
    | none => url
  match manualTitle with
  | some m => if m ≠ "" then base ++ " \"" ++ m ++ "\"" else base
  | none => base

/-- The part of the analysis prompt (lines 34–44) preceding the first
`Grade ${writingGrade}` interpolation. -/
def analysisPromptHead (url : String) (videoId : Option String) (manualTitle : Option String) : String :=
  "\n    You are an AI assistant helper for a children's book report app.\n\n    **TASK**: Analyze the specific YouTube video provided and extract its content to help a child write a report.\n\n    **TARGET**:\n    - URL: " ++ url ++
  "\n    - Video ID: " ++ jsOrOpt videoId "Unknown" ++
  "\n    - User Provided Title Hint: " ++ jsOrOpt manualTitle "None" ++
  "\n    - Search Query to use: " ++ buildSearchQuery url videoId manualTitle ++
  "\n    - Target Audience Level: Elementary School "

/-- The part of the analysis prompt (lines 44–58) between the first
`Grade ${writingGrade}` interpolation and the `**Summary**` line. -/
def analysisPromptMid (writingGrade : Nat) : String :=
  " (Korean Education System)\n\n    **CRITICAL INSTRUCTIONS (DO NOT IGNORE)**:\n    1. **MANDATORY SEARCH**: You MUST use the 'googleSearch' tool. execute the search query provided above to find the *exact* video title and description/content.\n    2. **IDENTIFY SPECIFIC VERSION**: \n       - If the user provided a \"User Provided Title Hint\", prioritize checking if the video matches this title.\n       - Do NOT assume the story is the classic original version just by the title. \n       - If the video is \"Pinkfong Three Little Pigs\", summarize the specific Pinkfong musical version.\n       - If it is a parody or a specific cartoon episode (e.g., Pororo, Hello Carbot), summarize THAT specific plot.\n       - If the link content does not match the classic fairy tale, follow the link's content.\n    3. **NO GUESSING**: If you absolutely cannot find the video details via search, state that you couldn't find the specific video content instead of hallucinating a generic story.\n    4. **WRITING STYLE & LEVEL (Grade " ++ toString writingGrade ++
  ")**:\n       - **Grade 1-2**: Use very simple sentences, basic vocabulary, friendly and soft tone (해요-che). Avoid difficult words.\n       - **Grade 3-4**: Use structured sentences, slightly more descriptive vocabulary.\n       - **Grade 5-6**: Use more complex sentences, critical thinking, and mature expressions.\n       - "

/-- The output-format part of the analysis prompt (lines 62–68). -/
def analysisPromptEnd (summaryLength thoughtsLength writingGrade : Nat) : String :=
  "\n\n    **OUTPUT FORMAT (Korean)**:\n    Provide the result in the following format:\n\n    제목: [Exact Video Title found via search, or use the User Provided Title if it matches]\n    줄거리: [A " ++ toString summaryLength ++
  "-sentence summary of the ACTUAL video content, written for Grade " ++ toString writingGrade ++
  " level]\n    장면: [Visual description of a specific scene unique to this video version]\n    느낀점: [Educational or emotional thought based on this specific video, approx " ++ toString thoughtsLength ++
  " sentences, written for Grade " ++ toString writingGrade ++ " level]\n  "

/-- The analysis prompt of `analyzeStoryLink` (lines 34–69), with the
writing grade and the requested summary/thoughts sentence counts
interpolated. -/
def buildAnalysisPrompt (url : String) (videoId : Option String)
    (summaryLength thoughtsLength writingGrade : Nat)
    (manualTitle : Option String) : String :=
  analysisPromptHead url videoId manualTitle ++
  ("Grade " ++ toString writingGrade) ++
  analysisPromptMid writingGrade ++
  ("**Summary**: Approximately " ++ toString summaryLength ++ " sentences.") ++
  "\n       - " ++
  ("**Thoughts/Feelings**: Approximately " ++ toString thoughtsLength ++ " sentences.") ++
  analysisPromptEnd summaryLength thoughtsLength writingGrade

/-! ## `geminiService.ts`: generative-AI response structure and extraction -/

/-- `inlineData` of a response part; both fields are optional in the API
types. -/
structure InlineData where
  data : Option String
  mimeType : Option String
deriving DecidableEq, Repr

/-- A response part. -/
structure GenPart where
  inlineData : Option InlineData
deriving DecidableEq, Repr

/-- A candidate's `content`. -/
structure GenContent where
  parts : Option (List GenPart)
deriving DecidableEq, Repr

/-- A response candidate. -/
structure GenCandidate where
  content : Option GenContent
deriving DecidableEq, Repr

/-- A generative-AI response: an optional `text` accessor and optional
`candidates`. -/
structure GenResponse where
  text : Option String
  candidates : Option (List GenCandidate)
deriving DecidableEq, Repr

/-- The loop of `generateSceneImage` (lines 179–185): the data URL built
from the first part carrying `inlineData`, with the `image/png` MIME-type
default (an undefined `data` field is interpolated by JavaScript as the
string `undefined`). -/
def firstInlineDataUrl : List GenPart → Option String
  | [] => none
  | p :: rest =>
    match p.inlineData with
    | some d =>
      some ("data:" ++ jsOrOpt d.mimeType "image/png" ++ ";base64," ++ d.data.getD "undefined")
    | none => firstInlineDataUrl rest

/-- Result extraction of `generateSceneImage` (lines 178–188): the guarded
walk `candidates && candidates[0].content && candidates[0].content.parts`
followed by the part loop; every path that produces no inline data (a
missing link in the chain, an empty candidate list — a `TypeError` in
JavaScript — or a part list without inline data) ends in the same `catch`
block. -/
def extractImageUrl (resp : GenResponse) : Option String :=
  match resp.candidates with
  | none => none
  | some [] => none
  | some (c :: _) =>
    match c.content with
    | none => none
    | some content =>
      match content.parts with
      | none => none
      | some parts => firstInlineDataUrl parts

/-- Result extraction of `generateStorySpeech` (line 214): the optional
chain `candidates?.[0]?.content?.parts?.[0]?.inlineData?.data`. -/
def extractAudio (resp : GenResponse) : Option String :=
  match resp.candidates with
  | none => none
  | some [] => none
  | some (c :: _) =>
    match c.content with
    | none => none
    | some content =>
      match content.parts with
      | none => none
      | some [] => none
      | some (p :: _) =>
        match p.inlineData with
        | none => none
        | some d => d.data

/-- Error message of `analyzeStoryLink` (line 120). -/
def analyzeErrorMsg : String := "AI가 동화를 분석하는 중에 문제가 발생했어요. 잠시 후 다시 시도해주세요."

/-- Error message of `generateSceneImage` (line 191). -/
def imageErrorMsg : String := "그림을 그리는 중 오류가 발생했어요."

/-- Error message of `generateStorySpeech` (line 221). -/
def speechErrorMsg : String := "음성을 생성하는 중 오류가 발생했어요."

/-! ## `geminiService.ts`: the three operations

The external `ai.models.generateContent` call is modelled as an oracle
`gemini : String → Except String GenResponse` mapping the prompt to either
a thrown error or a response. Each operation's `try`/`catch` replaces every
failure inside the `try` block by one fixed Korean message. -/

/-- `analyzeStoryLink` (lines 13–122) after the client is obtained: build
the prompt, call the model, parse `response.text || ""`; any thrown error
becomes the fixed analysis error message. -/
def analyzeStoryLink (gemini : String → Except String GenResponse)
    (url : String) (videoId : Option String)
    (summaryLength thoughtsLength writingGrade : Nat)
    (manualTitle : Option String) : Except String YouTubeAnalysisResult :=
  let prompt := buildAnalysisPrompt url videoId summaryLength thoughtsLength writingGrade manualTitle
  match gemini prompt with
  | .error _ => .error analyzeErrorMsg
  | .ok resp => .ok (parseAnalysis (jsOrOpt resp.text "") manualTitle)

/-- `generateSceneImage` (lines 124–193): build the prompt, call the model,
return the first inline-data URL; a failed call, or the in-`try` throw when
no image part exists, both become the fixed image error message. -/
def generateSceneImage (gemini : String → Except String GenResponse)
    (sceneDescription title summary : String) (level : DrawingLevel) : Except String String :=
  let prompt := buildImagePrompt sceneDescription title summary level
  match gemini prompt with
  | .error _ => .error imageErrorMsg
  | .ok resp =>
    match extractImageUrl resp with
    | some url => .ok url
    | none => .error imageErrorMsg

/-- `generateStorySpeech` (lines 195–223): call the model on the text,
return the base64 audio data; a failed call, or the in-`try` throw when the
optional chain yields no (or empty) data, both become the fixed speech
error message. -/
def generateStorySpeech (gemini : String → Except String GenResponse)
    (text : String) : Except String String :=
  match gemini text with
  | .error _ => .error speechErrorMsg
  | .ok resp =>
    let audio := (extractAudio resp).getD ""
    if audio = "" then .error speechErrorMsg else .ok audio

/-! ## `StoryForm.tsx`: the four style toggles (lines 73–96) -/

/-- The font list of `toggleFontFamily` (line 74). -/
def fontsList : List FontFamily :=
  [.basic, .cute, .hand, .dongle, .gamja, .poor]

/-- `toggleFontFamily` (lines 73–77): step to the next font in the list,
wrapping around. -/
def toggleFontFamily (f : FontFamily) : FontFamily :=
  fontsList.getD ((fontsList.indexOf f + 1) % fontsList.length) .basic

/-- The size list of `toggleFontSize` (line 80). -/
def sizesList : List FontSize :=
  [.xsmall, .small, .medium, .large, .xlarge]

/-- `toggleFontSize` (lines 79–83). -/
def toggleFontSize (s : FontSize) : FontSize :=
  sizesList.getD ((sizesList.indexOf s + 1) % sizesList.length) .xsmall

/-- The level list of `toggleDrawingLevel` (line 86). -/
def levelsList : List DrawingLevel :=
  [.low, .medium, .high]

/-- `toggleDrawingLevel` (lines 85–90). -/
def toggleDrawingLevel (l : DrawingLevel) : DrawingLevel :=
  levelsList.getD ((levelsList.indexOf l + 1) % levelsList.length) .low

/-- `toggleWritingGrade` (lines 92–96): `(writingGrade % 6) + 1`. -/
def toggleWritingGrade (g : Nat) : Nat :=
  g % 6 + 1

/-! ## App root: the entry store (`src/unnamed/part_000` lines 55–69) -/

/-- `handleSaveEntry` (lines 55–63): when an entry with the same id exists,
map the replacement over the list; otherwise prepend the new entry. -/
def saveEntry (entry : StoryEntry) (prev : List StoryEntry) : List StoryEntry :=
  if (prev.find? (fun e => e.id == entry.id)).isSome then
    prev.map (fun e => if e.id == entry.id then entry else e)
  else
    entry :: prev

/-- The state update of `handleDeleteEntry` (lines 65–69): keep the entries
whose id differs (the surrounding `window.confirm` guard is UI, not
modelled). -/
def deleteEntry (id : String) (prev : List StoryEntry) : List StoryEntry :=
  prev.filter (fun e => e.id != id)

/-! ## `StoryWorkspace.tsx`: the workspace state and `getCurrentEntry` -/

/-- The component state of `StoryWorkspace` that `getCurrentEntry` reads:
the four editable fields, the generated image (`string | null`), the loaded
entry bookkeeping, and the style props passed down from the app root. -/
structure WorkspaceState where
  title : String
  summary : String
  favoriteScene : String
  thoughts : String
  generatedImage : Option String
  loadedId : Option String
  loadedVideoUrl : String
  loadedVideoId : String
  fontFamily : FontFamily
  fontSize : FontSize
  drawingLevel : DrawingLevel
  writingGrade : Nat
deriving DecidableEq, Repr

/-- The fixed caption used when the scene text is blank but a generated
image exists (StoryWorkspace.tsx line 234). -/
def sceneCaption : String := "AI가 줄거리를 바탕으로 상상하여 그린 장면입니다."

/-- Placeholder for a blank title (line 242). -/
def noTitleText : String := "제목 없음"

/-- Placeholder for a blank summary (line 243). -/
def noSummaryText : String := "줄거리 없음"

/-- Placeholder for a blank scene or thoughts field (lines 244–245). -/
def noContentText : String := "내용 없음"

/-- `getCurrentEntry` (StoryWorkspace.tsx lines 231–250); `generateId()`
and `Date.now()` are impure and taken as the parameters `freshId` and
`now`. -/
def getCurrentEntry (s : WorkspaceState) (freshId : String) (now : Nat) : StoryEntry :=
  -- let finalSceneText = favoriteScene; if (!finalSceneText && generatedImage) …
  let finalSceneText :=
    if s.favoriteScene = "" ∧ optStrTruthy s.generatedImage then sceneCaption
    else s.favoriteScene
  { id := jsOrOpt s.loadedId freshId
    videoUrl := s.loadedVideoUrl
    videoId := s.loadedVideoId
    title := jsOr s.title noTitleText
    summary := jsOr s.summary noSummaryText
    favoriteScene := jsOr finalSceneText noContentText
    thoughts := jsOr s.thoughts noContentText
    -- generatedImageUrl: generatedImage || undefined
    generatedImageUrl :=
      match s.generatedImage with
      | some g => if g = "" then none else some g
      | none => none
    styleConfig := some ⟨s.fontFamily, s.fontSize, some s.drawingLevel, some s.writingGrade⟩
    createdAt := now }

/-! ## Sample data for concrete witnesses -/

/-- A sample style configuration. -/
def sampleStyle : StoryStyleConfig := ⟨.basic, .medium, some .low, some 1⟩

/-- A sample saved entry. -/
def sampleEntryA : StoryEntry :=
  ⟨"id1", "https://youtu.be/a", "a", "아기돼지 삼형제", "줄거리", "장면", "느낀점", none, some sampleStyle, 0⟩

/-- A sample entry sharing `sampleEntryA`'s id with different content. -/
def sampleEntryA2 : StoryEntry :=
  ⟨"id1", "https://youtu.be/a", "a", "새 제목", "새 줄거리", "장면", "느낀점", none, some sampleStyle, 5⟩

/-- A sample entry with a different id. -/
def sampleEntryB : StoryEntry :=
  ⟨"id2", "https://youtu.be/b", "b", "콩쥐팥쥐", "줄거리", "장면", "느낀점", none, none, 1⟩

/-- A sample workspace state with blank fields and a generated image. -/
def sampleState : WorkspaceState :=
  ⟨"", "", "", "", some "img", none, "https://youtu.be/a", "a", .basic, .medium, .low, 1⟩

/-! ## Helper lemmas -/

/-- `jsOr` never returns the empty string when its fallback is nonempty. -/
theorem jsOr_ne_empty (a b : String) (hb : b ≠ "") : jsOr a b ≠ "" := by
  unfold jsOr
  split
  · exact hb
  · assumption

/-- A list whose `dropWhile` result starts with `c` has `p c = false`. -/
theorem dropWhile_head_false (p : Char → Bool) (l : List Char) (c : Char) (rest : List Char)
    (h : l.dropWhile p = c :: rest) : p c = false := by
  induction l with
  | nil => simp at h
  | cons a as ih =>
    rw [List.dropWhile_cons] at h
    by_cases ha : p a
    · exact ih (by simpa [ha] using h)
    · rw [if_neg (by simp [ha])] at h
      cases h
      simpa using ha

/-- Every JavaScript line terminator is JavaScript whitespace. -/
theorem lineTerm_isJsWs (c : Char) (h : isLineTerm c = true) : isJsWs c = true := by
  simp only [isLineTerm, decide_eq_true_eq] at h
  simp only [isJsWs, decide_eq_true_eq]
  tauto

/-- Trimming a list headed by a non-whitespace character is nonempty. -/
theorem jsTrim_cons_ne_nil (c : Char) (cs : List Char) (hc : isJsWs c = false) :
    jsTrim (c :: cs) ≠ [] := by
  unfold jsTrim
  rw [List.dropWhile_cons, if_neg (by simp [hc])]
  intro hnil
  rw [List.reverse_eq_nil_iff, List.dropWhile_eq_nil_iff] at hnil
  have := hnil c (by simp)
  simp [hc] at this

/-- A successful title capture is always nonempty. -/
theorem matchTitle_ne_nil (lab t cap : List Char) (h : matchTitle lab t = some cap) :
    cap ≠ [] := by
  unfold matchTitle at h
  rcases hs : splitAtSub lab t with _ | ⟨pre, post⟩ <;> rw [hs] at h
  · exact absurd h (by simp)
  · unfold titleCaptureAt at h
    rcases htail : post.dropWhile isJsWs with _ | ⟨c, rest⟩ <;> simp only [htail] at h
    · rcases hg : ((post.takeWhile isJsWs).filter (fun c => ¬ isLineTerm c)).getLast? with _ | c <;>
        rw [hg] at h
      · exact absurd h (by simp)
      · cases h
        simp
    · have hcw : isJsWs c = false := dropWhile_head_false _ _ _ _ htail
      have hct : isLineTerm c = false := by
        rcases hlt : isLineTerm c with _ | _
        · rfl
        · rw [lineTerm_isJsWs c hlt] at hcw
          cases hcw
      cases h
      rw [List.takeWhile_cons, if_pos (by simp [hct])]
      simp

/-- A successful body capture is empty or led by a non-whitespace
character. -/
theorem matchBody_structure (lab stop t cap : List Char)
    (h : matchBody lab stop t = some cap) :
    cap = [] ∨ ∃ c cs, cap = c :: cs ∧ isJsWs c = false := by
  unfold matchBody at h
  rcases hs : splitAtSub lab t with _ | ⟨pre, post⟩ <;> rw [hs] at h
  · exact absurd h (by simp)
  · rcases htail : post.dropWhile isJsWs with _ | ⟨c, rest⟩ <;> simp only [htail] at h
    · cases h
      exact Or.inl rfl
    · have hcw : isJsWs c = false := dropWhile_head_false _ _ _ _ htail
      cases h
      rw [takeUntilSub]
      by_cases hp : stop.isPrefixOf (c :: rest)
      · rw [if_pos hp]
        exact Or.inl rfl
      · rw [if_neg hp]
        exact Or.inr ⟨c, _, rfl, hcw⟩

/-- The trim of a nonempty successful body capture is nonempty. -/
theorem matchBody_trim_ne_nil (lab stop t cap : List Char)
    (h : matchBody lab stop t = some cap) (hne : cap ≠ []) : jsTrim cap ≠ [] := by
  rcases matchBody_structure lab stop t cap h with hnil | ⟨c, cs, rfl, hcw⟩
  · exact absurd hnil hne
  · exact jsTrim_cons_ne_nil c cs hcw

/-- A list of UTF-16 length greater than 10 is nonempty. -/
theorem jsLength_gt_ne_nil (t : List Char) (h : jsLength t > 10) : t ≠ [] := by
  intro hnil
  subst hnil
  simp [jsLength] at h

/-! ## Claim theorems -/

/-- C2: each style toggle advances its option to the next element of its
fixed enumeration and wraps from the last back to the first
(fonts basic→cute→hand→dongle→gamja→poor→basic, sizes
x-small→small→medium→large→x-large→x-small, drawing low→medium→high→low,
grades 1→2→3→4→5→6→1), so applying a toggle 6, 5, 3, 6 times respectively
from any valid option returns that option. -/
theorem c2_style_toggles_cycle :
    (toggleFontFamily .basic = .cute ∧ toggleFontFamily .cute = .hand ∧
     toggleFontFamily .hand = .dongle ∧ toggleFontFamily .dongle = .gamja ∧
     toggleFontFamily .gamja = .poor ∧ toggleFontFamily .poor = .basic) ∧
    (toggleFontSize .xsmall = .small ∧ toggleFontSize .small = .medium ∧
     toggleFontSize .medium = .large ∧ toggleFontSize .large = .xlarge ∧
     toggleFontSize .xlarge = .xsmall) ∧
    (toggleDrawingLevel .low = .medium ∧ toggleDrawingLevel .medium = .high ∧
     toggleDrawingLevel .high = .low) ∧
    (toggleWritingGrade 1 = 2 ∧ toggleWritingGrade 2 = 3 ∧ toggleWritingGrade 3 = 4 ∧
     toggleWritingGrade 4 = 5 ∧ toggleWritingGrade 5 = 6 ∧ toggleWritingGrade 6 = 1) ∧
    (∀ f, toggleFontFamily^[6] f = f) ∧
    (∀ s, toggleFontSize^[5] s = s) ∧
    (∀ l, toggleDrawingLevel^[3] l = l) ∧
    (∀ g, validGrade g → toggleWritingGrade^[6] g = g) := by
  refine ⟨by decide, by decide, by decide, by decide, ?_, ?_, ?_, ?_⟩
  · intro f; cases f <;> rfl
  · intro s; cases s <;> rfl
  · intro l; cases l <;> rfl
  · rintro g ⟨h1, h6⟩
    interval_cases g <;> rfl

/-- C2 witness: the grade cycle at the concrete grade 3. -/
theorem c2_style_toggles_cycle_witness :
    validGrade 3 ∧ toggleWritingGrade^[6] 3 = 3 :=
  ⟨by decide, c2_style_toggles_cycle.2.2.2.2.2.2.2 3 (by decide)⟩

/-- C3: on a store whose entry ids are all distinct, both the save
operation and the delete operation preserve distinctness of ids. -/
theorem c3_store_ids_distinct (prev : List StoryEntry) (entry : StoryEntry) (id' : String)
    (h : (prev.map StoryEntry.id).Nodup) :
    ((saveEntry entry prev).map StoryEntry.id).Nodup ∧
    ((deleteEntry id' prev).map StoryEntry.id).Nodup := by
  constructor
  · unfold saveEntry
    split
    · have hmap : (prev.map fun e => if e.id == entry.id then entry else e).map StoryEntry.id
          = prev.map StoryEntry.id := by
        rw [List.map_map]
        refine List.map_congr_left ?_
        intro e _
        by_cases he : e.id = entry.id
        · simp [he]
        · simp [he]
      rw [hmap]
      exact h
    · rename_i hnone
      rw [List.map_cons]
      refine List.Nodup.cons ?_ h
      intro hmem
      obtain ⟨e, he, hid⟩ := List.mem_map.mp hmem
      exact hnone (by
        rw [List.find?_isSome]
        exact ⟨e, he, by simp [hid]⟩)
  · exact h.sublist ((List.filter_sublist prev).map StoryEntry.id)

/-- C3 witness: saving into and deleting from a concrete one-entry store. -/
theorem c3_store_ids_distinct_witness :
    (([sampleEntryA].map StoryEntry.id).Nodup) ∧
    (((saveEntry sampleEntryB [sampleEntryA]).map StoryEntry.id).Nodup ∧
     ((deleteEntry "id1" [sampleEntryA]).map StoryEntry.id).Nodup) :=
  ⟨by decide, c3_store_ids_distinct [sampleEntryA] sampleEntryB "id1" (by decide)⟩

/-- C6: the entry produced by `getCurrentEntry` always carries a style
configuration and the creation timestamp, and carries an illustration
image exactly when the workspace holds a (truthy) generated image: the
image is the only component that can be absent. -/
theorem c6_saved_entry_shape (s : WorkspaceState) (freshId : String) (now : Nat) :
    (getCurrentEntry s freshId now).styleConfig.isSome = true ∧
    (getCurrentEntry s freshId now).createdAt = now ∧
    (getCurrentEntry s freshId now).generatedImageUrl.isSome = optStrTruthy s.generatedImage := by
  refine ⟨rfl, rfl, ?_⟩
  unfold getCurrentEntry optStrTruthy
  cases hg : s.generatedImage with
  | none => rfl
  | some g =>
    by_cases h : g = "" <;> simp [h]

/-- C7: the entry produced by `getCurrentEntry` (rendered for export and
passed to save) has a style configuration whose four components equal the
currently selected font family, font size, drawing level and writing
grade. -/
theorem c7_style_config_exported (s : WorkspaceState) (freshId : String) (now : Nat) :
    (getCurrentEntry s freshId now).styleConfig
      = some ⟨s.fontFamily, s.fontSize, some s.drawingLevel, some s.writingGrade⟩ :=
  rfl

/-- C8: `handleSaveEntry` is update-or-prepend: when an entry with the
saved id exists, the list keeps its length and every position holds its
old entry except that entries bearing the saved id are replaced in place;
otherwise the new entry is prepended and the rest of the list is
untouched. -/
theorem c8_save_update_or_prepend (prev : List StoryEntry) (entry : StoryEntry) :
    ((∃ e ∈ prev, e.id = entry.id) →
       (saveEntry entry prev).length = prev.length ∧
       ∀ i : Nat, (saveEntry entry prev)[i]?
         = (prev[i]?).map (fun p => if p.id = entry.id then entry else p)) ∧
    ((∀ e ∈ prev, e.id ≠ entry.id) → saveEntry entry prev = entry :: prev) := by
  constructor
  · intro hex
    have hsome : (prev.find? (fun e => e.id == entry.id)).isSome := by
      rw [List.find?_isSome]
      obtain ⟨e, he, hid⟩ := hex
      exact ⟨e, he, by simp [hid]⟩
    unfold saveEntry
    rw [if_pos hsome]
    refine ⟨List.length_map _ _, ?_⟩
    intro i
    rw [List.getElem?_map]
    rcases hp : prev[i]? with _ | p
    · rfl
    · simp only [Option.map_some']
      by_cases hpe : p.id = entry.id <;> simp [hpe]
  · intro hnone
    have hfind : prev.find? (fun e => e.id == entry.id) = none :=
      List.find?_eq_none.mpr (fun e he => by simp [hnone e he])
    unfold saveEntry
    rw [if_neg (by simp [hfind])]

/-- C8 witness: replacing the sole entry of a store in place, and
prepending to a store that lacks the id. -/
theorem c8_save_update_or_prepend_witness :
    ((∃ e ∈ [sampleEntryA], e.id = sampleEntryA2.id) ∧
      (saveEntry sampleEntryA2 [sampleEntryA])[0]?
        = (([sampleEntryA])[0]?).map (fun p => if p.id = sampleEntryA2.id then sampleEntryA2 else p)) ∧
    ((∀ e ∈ [sampleEntryA], e.id ≠ sampleEntryB.id) ∧
      saveEntry sampleEntryB [sampleEntryA] = sampleEntryB :: [sampleEntryA]) :=
  ⟨⟨by decide, ((c8_save_update_or_prepend [sampleEntryA] sampleEntryA2).1 (by decide)).2 0⟩,
   ⟨by decide, (c8_save_update_or_prepend [sampleEntryA] sampleEntryB).2 (by decide)⟩⟩

/-- C9: deleting by id removes exactly the entries whose id equals the
given id, keeps the survivors in their original relative order, and is the
identity when no entry bears the id. -/
theorem c9_delete_exact (l : List StoryEntry) (id' : String) :
    (∀ e, e ∈ deleteEntry id' l ↔ e ∈ l ∧ e.id ≠ id') ∧
    List.Sublist (deleteEntry id' l) l ∧
    ((∀ e ∈ l, e.id ≠ id') → deleteEntry id' l = l) := by
  refine ⟨?_, List.filter_sublist l, ?_⟩
  · intro e
    simp [deleteEntry, List.mem_filter, bne_iff_ne]
  · intro hnone
    unfold deleteEntry
    exact List.filter_eq_self.mpr (fun e he => by simp [hnone e he])

/-- C9 witness: deleting an absent id from a concrete two-entry store
leaves it unchanged. -/
theorem c9_delete_exact_witness :
    (∀ e ∈ [sampleEntryA, sampleEntryB], e.id ≠ "id3") ∧
    deleteEntry "id3" [sampleEntryA, sampleEntryB] = [sampleEntryA, sampleEntryB] :=
  ⟨by decide, (c9_delete_exact [sampleEntryA, sampleEntryB] "id3").2.2 (by decide)⟩

/-- C10: `getCurrentEntry` never produces an empty title, summary, scene
text or thoughts: each blank field is replaced by its fixed placeholder,
and a blank scene with a (truthy) generated image receives the fixed
AI-drawn-scene caption instead of the generic placeholder. -/
theorem c10_no_blank_fields (s : WorkspaceState) (freshId : String) (now : Nat) :
    (getCurrentEntry s freshId now).title ≠ "" ∧
    (getCurrentEntry s freshId now).summary ≠ "" ∧
    (getCurrentEntry s freshId now).favoriteScene ≠ "" ∧
    (getCurrentEntry s freshId now).thoughts ≠ "" ∧
    (s.title = "" → (getCurrentEntry s freshId now).title = noTitleText) ∧
    (s.summary = "" → (getCurrentEntry s freshId now).summary = noSummaryText) ∧
    (s.thoughts = "" → (getCurrentEntry s freshId now).thoughts = noContentText) ∧
    (s.favoriteScene = "" → optStrTruthy s.generatedImage = true →
      (getCurrentEntry s freshId now).favoriteScene = sceneCaption) ∧
    (s.favoriteScene = "" → optStrTruthy s.generatedImage = false →
      (getCurrentEntry s freshId now).favoriteScene = noContentText) := by
  refine ⟨jsOr_ne_empty _ _ (by decide), jsOr_ne_empty _ _ (by decide),
          jsOr_ne_empty _ _ (by decide), jsOr_ne_empty _ _ (by decide),
          ?_, ?_, ?_, ?_, ?_⟩
  · intro h; simp [getCurrentEntry, jsOr, h]
  · intro h; simp [getCurrentEntry, jsOr, h]
  · intro h; simp [getCurrentEntry, jsOr, h]
  · intro h himg
    have hcap : sceneCaption ≠ "" := by decide
    simp [getCurrentEntry, jsOr, h, himg, hcap]
  · intro h himg
    simp [getCurrentEntry, jsOr, h, himg]

/-- C10 witness: the blank sample state with a generated image yields the
placeholders and the AI-drawn-scene caption. -/
theorem c10_no_blank_fields_witness :
    (sampleState.title = "" ∧ sampleState.favoriteScene = "" ∧
     optStrTruthy sampleState.generatedImage = true) ∧
    ((getCurrentEntry sampleState "fresh" 7).title = noTitleText ∧
     (getCurrentEntry sampleState "fresh" 7).favoriteScene = sceneCaption) :=
  ⟨⟨rfl, rfl, by decide⟩,
   ⟨(c10_no_blank_fields sampleState "fresh" 7).2.2.2.2.1 rfl,
    (c10_no_blank_fields sampleState "fresh" 7).2.2.2.2.2.2.2.1 rfl (by decide)⟩⟩

/-- An oracle whose generative call always fails. -/
def geminiDown : String → Except String GenResponse :=
  fun _ => .error "network down"

/-- An oracle returning a response with no text and no candidates. -/
def geminiEmptyResp : String → Except String GenResponse :=
  fun _ => .ok ⟨none, none⟩

/-- C4: the three AI operations have no recovery behaviour: each result is
either a complete success or exactly the operation's fixed child-friendly
Korean error message — in particular a failed generative call, and for the
image/speech operations a response from which no data can be extracted,
always produce the fixed message and nothing else. -/
theorem c4_fixed_error_messages :
    (∀ (gemini : String → Except String GenResponse) url vid sl tl wg mt,
      ((∃ r, analyzeStoryLink gemini url vid sl tl wg mt = .ok r) ∨
        analyzeStoryLink gemini url vid sl tl wg mt = .error analyzeErrorMsg) ∧
      (∀ e, gemini (buildAnalysisPrompt url vid sl tl wg mt) = .error e →
        analyzeStoryLink gemini url vid sl tl wg mt = .error analyzeErrorMsg)) ∧
    (∀ (gemini : String → Except String GenResponse) sd t sm lv,
      ((∃ u, generateSceneImage gemini sd t sm lv = .ok u) ∨
        generateSceneImage gemini sd t sm lv = .error imageErrorMsg) ∧
      (∀ e, gemini (buildImagePrompt sd t sm lv) = .error e →
        generateSceneImage gemini sd t sm lv = .error imageErrorMsg) ∧
      (∀ resp, gemini (buildImagePrompt sd t sm lv) = .ok resp → extractImageUrl resp = none →
        generateSceneImage gemini sd t sm lv = .error imageErrorMsg)) ∧
    (∀ (gemini : String → Except String GenResponse) txt,
      ((∃ a, generateStorySpeech gemini txt = .ok a) ∨
        generateStorySpeech gemini txt = .error speechErrorMsg) ∧
      (∀ e, gemini txt = .error e →
        generateStorySpeech gemini txt = .error speechErrorMsg) ∧
      (∀ resp, gemini txt = .ok resp → (extractAudio resp).getD "" = "" →
        generateStorySpeech gemini txt = .error speechErrorMsg)) := by
  refine ⟨?_, ?_, ?_⟩
  · intro gemini url vid sl tl wg mt
    constructor
    · rcases h : gemini (buildAnalysisPrompt url vid sl tl wg mt) with e | resp
      · exact Or.inr (by simp [analyzeStoryLink, h])
      · exact Or.inl ⟨parseAnalysis (jsOrOpt resp.text "") mt, by simp [analyzeStoryLink, h]⟩
    · intro e he
      simp [analyzeStoryLink, he]
  · intro gemini sd t sm lv
    refine ⟨?_, ?_, ?_⟩
    · rcases h : gemini (buildImagePrompt sd t sm lv) with e | resp
      · exact Or.inr (by simp [generateSceneImage, h])
      · rcases hx : extractImageUrl resp with _ | u
        · exact Or.inr (by simp [generateSceneImage, h, hx])
        · exact Or.inl ⟨u, by simp [generateSceneImage, h, hx]⟩
    · intro e he
      simp [generateSceneImage, he]
    · intro resp hresp hx
      simp [generateSceneImage, hresp, hx]
  · intro gemini txt
    refine ⟨?_, ?_, ?_⟩
    · rcases h : gemini txt with e | resp
      · exact Or.inr (by simp [generateStorySpeech, h])
      · by_cases hx : (extractAudio resp).getD "" = ""
        · exact Or.inr (by simp [generateStorySpeech, h, hx])
        · exact Or.inl ⟨(extractAudio resp).getD "", by simp [generateStorySpeech, h, hx]⟩
    · intro e he
      simp [generateStorySpeech, he]
    · intro resp hresp hx
      simp [generateStorySpeech, hresp, hx]

/-- C4 witness: a dead network gives the fixed analysis message; an empty
response gives the fixed image and speech messages. -/
theorem c4_fixed_error_messages_witness :
    (geminiDown (buildAnalysisPrompt "u" none 2 2 1 none) = .error "network down" ∧
      analyzeStoryLink geminiDown "u" none 2 2 1 none = .error analyzeErrorMsg) ∧
    (geminiEmptyResp (buildImagePrompt "장면" "제목" "줄거리" .low) = .ok ⟨none, none⟩ ∧
      extractImageUrl ⟨none, none⟩ = none ∧
      generateSceneImage geminiEmptyResp "장면" "제목" "줄거리" .low = .error imageErrorMsg) ∧
    (geminiEmptyResp "줄거리" = .ok ⟨none, none⟩ ∧
      (extractAudio ⟨none, none⟩).getD "" = "" ∧
      generateStorySpeech geminiEmptyResp "줄거리" = .error speechErrorMsg) :=
  ⟨⟨rfl, (c4_fixed_error_messages.1 geminiDown "u" none 2 2 1 none).2 "network down" rfl⟩,
   ⟨rfl, rfl,
    (c4_fixed_error_messages.2.1 geminiEmptyResp "장면" "제목" "줄거리" .low).2.2 ⟨none, none⟩ rfl rfl⟩,
   ⟨rfl, rfl,
    (c4_fixed_error_messages.2.2 geminiEmptyResp "줄거리").2.2 ⟨none, none⟩ rfl rfl⟩⟩

/-- C5: the style configuration reaches the AI prompts: the image prompt
contains exactly the style guideline selected by the drawing level (`low`
the simple/cute crayon style, `medium` the standard children's-book
watercolor style, the remaining level the high-quality artistic style),
and the analysis prompt contains the writing grade and the requested
summary and thoughts sentence counts. -/
theorem c5_style_reaches_prompts :
    (∀ sd t sm lv, ∃ a b, buildImagePrompt sd t sm lv = a ++ styleGuideFor lv ++ b) ∧
    (styleGuideFor .low = "Style: Simple and cute art. Thick lines, bright primary colors, simple shapes, crayon or marker style, whimsical. Easy to understand for young children." ∧
     styleGuideFor .medium = "Style: Standard children's book illustration. Colored pencils or soft watercolor. Warm atmosphere, balanced details, friendly characters." ∧
     styleGuideFor .high = "Style: High-quality, artistic illustration. Refined details, sophisticated composition, expressive lighting, beautiful digital art or detailed watercolor.") ∧
    (∀ url vid sl tl wg mt,
      (∃ a b, buildAnalysisPrompt url vid sl tl wg mt
        = a ++ ("Grade " ++ toString wg) ++ b) ∧
      (∃ a b, buildAnalysisPrompt url vid sl tl wg mt
        = a ++ ("**Summary**: Approximately " ++ toString sl ++ " sentences.") ++ b) ∧
      (∃ a b, buildAnalysisPrompt url vid sl tl wg mt
        = a ++ ("**Thoughts/Feelings**: Approximately " ++ toString tl ++ " sentences.") ++ b)) := by
  refine ⟨?_, ⟨rfl, rfl, rfl⟩, ?_⟩
  · intro sd t sm lv
    exact ⟨imagePromptHead sd t sm lv, imagePromptTail, rfl⟩
  · intro url vid sl tl wg mt
    refine ⟨⟨analysisPromptHead url vid mt,
        analysisPromptMid wg ++
        ("**Summary**: Approximately " ++ toString sl ++ " sentences.") ++
        "\n       - " ++
        ("**Thoughts/Feelings**: Approximately " ++ toString tl ++ " sentences.") ++
        analysisPromptEnd sl tl wg, ?_⟩,
      ⟨analysisPromptHead url vid mt ++ ("Grade " ++ toString wg) ++ analysisPromptMid wg,
        "\n       - " ++
        ("**Thoughts/Feelings**: Approximately " ++ toString tl ++ " sentences.") ++
        analysisPromptEnd sl tl wg, ?_⟩,
      ⟨analysisPromptHead url vid mt ++ ("Grade " ++ toString wg) ++ analysisPromptMid wg ++
        ("**Summary**: Approximately " ++ toString sl ++ " sentences.") ++
        "\n       - ",
        analysisPromptEnd sl tl wg, ?_⟩⟩ <;>
      simp only [buildAnalysisPrompt, String.append_assoc]

/-- C1 (amended): the four fields are extracted by ordered pattern matching
on the labels `제목:`, `줄거리:`, `장면:`, `느낀점:`, each body field's match
ending at the next label or the end of the text and each extracted value
trimmed; on failure the title falls back to the manual title or fixed text
and the summary to the whole response text (when no title matched and the
text exceeds 10 units) or fixed text, while a failed scene or thoughts
extraction yields the empty string. -/
theorem c1_parser_extraction (text : String) (mt : Option String) :
    ((parseAnalysis text mt).recommendedScene
       = ⟨jsTrim ((matchBody sceneLabelK thoughtsLabelK text.data).getD [])⟩) ∧
    ((parseAnalysis text mt).recommendedThoughts
       = ⟨jsTrim ((matchToEnd thoughtsLabelK text.data).getD [])⟩) ∧
    (∀ cap, matchBody summaryLabelK sceneLabelK text.data = some cap → cap ≠ [] →
       (parseAnalysis text mt).summary = ⟨jsTrim cap⟩) ∧
    ((matchBody summaryLabelK sceneLabelK text.data).getD [] = [] →
       (parseAnalysis text mt).summary
         = if matchTitle titleLabelK text.data = none ∧ jsLength text.data > 10
           then text else summaryFallback) ∧
    (∀ cap, matchTitle titleLabelK text.data = some cap → jsTrim cap ≠ [] →
       (parseAnalysis text mt).title = ⟨jsTrim cap⟩) ∧
    (∀ cap, matchTitle titleLabelK text.data = some cap → jsTrim cap = [] →
       (parseAnalysis text mt).title = titleFallback) ∧
    (matchTitle titleLabelK text.data = none →
       (parseAnalysis text mt).title = jsOr (jsOrOpt mt "") titleFallback) := by
  refine ⟨?_, ?_, ?_, ?_, ?_, ?_, ?_⟩
  · rcases h : matchBody sceneLabelK thoughtsLabelK text.data with _ | cap
    · simp [parseAnalysis, h, jsTrim]
    · by_cases hc : cap = []
      · simp [parseAnalysis, h, hc, jsTrim]
      · simp [parseAnalysis, h, hc]
  · rcases h : matchToEnd thoughtsLabelK text.data with _ | cap
    · simp [parseAnalysis, h, jsTrim]
    · by_cases hc : cap = []
      · simp [parseAnalysis, h, hc, jsTrim]
      · simp [parseAnalysis, h, hc]
  · intro cap h hc
    have htrim := matchBody_trim_ne_nil _ _ _ _ h hc
    simp [parseAnalysis, h, hc, htrim]
  · intro hget
    by_cases hcond : matchTitle titleLabelK text.data = none ∧ jsLength text.data > 10
    · have htne := jsLength_gt_ne_nil _ hcond.2
      rcases h : matchBody summaryLabelK sceneLabelK text.data with _ | cap
      · simp [parseAnalysis, h, hcond, htne]
      · rw [h] at hget
        simp only [Option.getD_some] at hget
        simp [parseAnalysis, h, hget, hcond, htne]
    · rcases h : matchBody summaryLabelK sceneLabelK text.data with _ | cap
      · simp [parseAnalysis, h, hcond]
      · rw [h] at hget
        simp only [Option.getD_some] at hget
        simp [parseAnalysis, h, hget, hcond]
  · intro cap h htrim
    have hne := matchTitle_ne_nil _ _ _ h
    simp [parseAnalysis, h, hne, htrim]
  · intro cap h htrim
    have hne := matchTitle_ne_nil _ _ _ h
    simp [parseAnalysis, h, hne, htrim]
  · intro h
    rcases hmt : jsOrOpt mt "" with ⟨l⟩
    by_cases hl : l = []
    · simp [parseAnalysis, h, jsOr, hmt, hl]
    · simp [parseAnalysis, h, jsOr, hmt, hl, String.ext_iff]

/-- A response text with title and summary labels but no scene or thoughts
label. -/
def c1FailText : String := "제목: 콩쥐팥쥐\n줄거리: 착한 콩쥐 이야기"

/-- A response text carrying all four labels. -/
def c1GoodText : String :=
  "제목: 아기돼지\n줄거리: 돼지 삼형제 이야기\n장면: 벽돌집 장면\n느낀점: 성실하게 살자"

/-- C1 counterexample: on a response lacking the scene and thoughts labels,
extraction of those fields fails and yet the result carries the empty
string — not fallback text — for them. -/
theorem c1_fallback_counterexample :
    matchBody sceneLabelK thoughtsLabelK c1FailText.data = none ∧
    matchToEnd thoughtsLabelK c1FailText.data = none ∧
    (parseAnalysis c1FailText none).recommendedScene = "" ∧
    (parseAnalysis c1FailText none).recommendedThoughts = "" :=
  ⟨rfl, rfl, rfl, rfl⟩

/-- C1 witness: the summary-extraction clause at a fully labelled
response. -/
theorem c1_parser_extraction_witness :
    (matchBody summaryLabelK sceneLabelK c1GoodText.data = some "돼지 삼형제 이야기\n".data ∧
     "돼지 삼형제 이야기\n".data ≠ []) ∧
    (parseAnalysis c1GoodText none).summary = ⟨jsTrim "돼지 삼형제 이야기\n".data⟩ :=
  ⟨⟨rfl, by simp⟩,
   (c1_parser_extraction c1GoodText none).2.2.1 "돼지 삼형제 이야기\n".data rfl (by simp)⟩

end FairyTale
